import Mathlib

/-!
Verification development for the `AppKernel` lifecycle core of the
Super_APK repository (`src/app_kernel.py`) and its feature snapshot
(`src/kernel_features.py`).

The Python kernel is a single-threaded, synchronous object.  We embed it
shallowly: the mutable instance fields become a `KernelState` record,
Python dictionaries become insertion-ordered association lists with
Python `dict` update semantics, exceptions become `Except` results, and
every method becomes a Lean function returning its result together with
the successor state.  Subsystem instances are opaque to the kernel, so
the state is parameterised over their type `α`.
-/

set_option autoImplicit false

namespace SuperAPK

/-! ## Python dictionaries as insertion-ordered association lists -/

/-- Lookup in a Python dict modelled as an association list. -/
def alookup {β : Type} : List (String × β) → String → Option β
  | [], _ => none
  | (k, v) :: rest, key => if k = key then some v else alookup rest key

/-- `d[k] = v` on a Python dict: replace in place if the key is present,
otherwise append at the end (Python dicts preserve insertion order). -/
def dictInsert {β : Type} (k : String) (v : β) : List (String × β) → List (String × β)
  | [] => [(k, v)]
  | (k0, v0) :: rest =>
      if k0 = k then (k0, v) :: rest else (k0, v0) :: dictInsert k v rest

/-- `list(d.keys())` on a Python dict. -/
def dictKeys {β : Type} (d : List (String × β)) : List String :=
  d.map Prod.fst

/-! ## Exceptions of `src/app_kernel.py` -/

/-- The two exception classes declared in `src/app_kernel.py`:
`KernelInvariantViolation` and `SubsystemNotInitializedError`, each
carrying its message string. -/
inductive KernelError : Type where
  | kernelInvariantViolation (msg : String)
  | subsystemNotInitialized (msg : String)
deriving DecidableEq

/-! ## Kernel instance state -/

/-- A shutdown hook as observed by the kernel: an identifier (so that the
call order is observable, as in the repository's own tests) and whether
invoking it raises an exception. -/
structure Hook : Type where
  id : Nat
  raises : Bool
deriving DecidableEq

/-- The mutable fields of one `AppKernel` instance: `_kernel_state`
(`booted`, `error_count`, `last_error`), `_subsystems`,
`_subsystem_status` and `_shutdown_hooks`.  `α` is the (opaque) type of
subsystem instances. -/
structure KernelState (α : Type) : Type where
  booted : Bool
  errorCount : Nat
  lastError : Option String
  subsystems : List (String × α)
  subsystemStatus : List (String × Bool)
  shutdownHooks : List Hook
deriving DecidableEq

/-- The fields as `AppKernel.__init__` sets them on a fresh instance. -/
def initialKernelState {α : Type} : KernelState α :=
  { booted := false
    errorCount := 0
    lastError := none
    subsystems := []
    subsystemStatus := []
    shutdownHooks := [] }

/-! ## Boot: subsystem factories -/

/-- Outcome of invoking one subsystem constructor inside the `try` block
of `_init_state_manager` / `_init_network` / `_init_monitoring`:
either it yields an instance, or it raises `ImportError` (the
"implementation absent" signal), or it raises some other exception with
message `msg`. -/
inductive FactoryResult (α : Type) : Type where
  | success (inst : α)
  | absent
  | fatal (msg : String)
deriving DecidableEq

def FactoryResult.isSuccess {α : Type} : FactoryResult α → Bool
  | .success _ => true
  | .absent => false
  | .fatal _ => false

/-- The three subsystem constructors `boot` consults, in the order the
source calls them: state manager, then network, then monitoring. -/
structure BootEnv (α : Type) : Type where
  stateFactory : FactoryResult α
  networkFactory : FactoryResult α
  monitoringFactory : FactoryResult α

/-- One `_init_<name>` helper: on success it stores the instance and
marks the status true, on `ImportError` it only marks the status false,
and any other exception propagates (no field is mutated first, since in
the source the exception is raised by the constructor expression before
the dict assignments). -/
def initSubsystem {α : Type} (name : String) (f : FactoryResult α) (s : KernelState α) :
    Except String (KernelState α) :=
  match f with
  | .success inst =>
      .ok { s with
              subsystems := dictInsert name inst s.subsystems
              subsystemStatus := dictInsert name true s.subsystemStatus }
  | .absent =>
      .ok { s with subsystemStatus := dictInsert name false s.subsystemStatus }
  | .fatal msg => .error msg

/-- The `except Exception` handler of `boot`: record `str(e)` in
`last_error`, bump `error_count`, and raise `KernelInvariantViolation`
wrapping the original message. -/
def bootFatal {α : Type} (m : String) (s : KernelState α) :
    Except KernelError Bool × KernelState α :=
  (.error (.kernelInvariantViolation ("FATAL: Kernel boot failed: " ++ m)),
   { s with lastError := some m, errorCount := s.errorCount + 1 })

/-- `AppKernel.boot`: initialise state manager, network and monitoring in
that order; on the happy path set `booted` and return `True`; if any
constructor raises a non-`ImportError` exception, abort the rest of the
sequence and fail via `bootFatal`.  The second component is the kernel
state after the call (Python mutates the instance in place, so the
partial mutations survive a raised exception). -/
def boot {α : Type} (env : BootEnv α) (s : KernelState α) :
    Except KernelError Bool × KernelState α :=
  match initSubsystem "state" env.stateFactory s with
  | .error m => bootFatal m s
  | .ok s1 =>
      match initSubsystem "network" env.networkFactory s1 with
      | .error m => bootFatal m s1
      | .ok s2 =>
          match initSubsystem "monitoring" env.monitoringFactory s2 with
          | .error m => bootFatal m s2
          | .ok s3 => (.ok true, { s3 with booted := true })

/-- The message of the first fatal factory in boot order, if any:
exactly when `boot` takes a `bootFatal` branch. -/
def firstFatal {α : Type} (env : BootEnv α) : Option String :=
  match env.stateFactory with
  | .fatal m => some m
  | _ =>
      match env.networkFactory with
      | .fatal m => some m
      | _ =>
          match env.monitoringFactory with
          | .fatal m => some m
          | _ => none

/-! ## Shutdown -/

/-- Invoking one hook: raises iff its `raises` flag is set. -/
def hookCall (h : Hook) : Except String Unit :=
  if h.raises then .error ("hook " ++ toString h.id ++ " failed") else .ok ()

/-- The `for hook in reversed(self._shutdown_hooks)` loop of `shutdown`,
given the already-reversed list.  Each call is wrapped in
`try ... except Exception`, so a raising hook is logged and the loop
continues; the trace records the hooks in invocation order. -/
def runHooksLoop : List Hook → List Nat → Except KernelError (List Nat)
  | [], trace => .ok trace
  | h :: rest, trace =>
      match hookCall h with
      | .ok _ => runHooksLoop rest (trace ++ [h.id])
      | .error _ => runHooksLoop rest (trace ++ [h.id])

/-- `AppKernel.shutdown`: run the hooks in reverse registration order,
clear `_subsystems` and `_subsystem_status`, set `booted` to `False`.
The source never clears `_shutdown_hooks`.  The result carries the
observed hook invocation order. -/
def shutdown {α : Type} (s : KernelState α) :
    Except KernelError (List Nat × KernelState α) :=
  match runHooksLoop s.shutdownHooks.reverse [] with
  | .error e => .error e
  | .ok trace =>
      .ok (trace,
           { s with subsystems := [], subsystemStatus := [], booted := false })

/-- `AppKernel.register_shutdown_hook`: append to `_shutdown_hooks`. -/
def register_shutdown_hook {α : Type} (s : KernelState α) (h : Hook) : KernelState α :=
  { s with shutdownHooks := s.shutdownHooks ++ [h] }

/-! ## Subsystem access -/

/-- Python `repr` of a list of strings, as interpolated by the f-string
in `get_subsystem` (`['state', 'network']`-style). -/
def pyStrList (l : List String) : String :=
  "[" ++ String.intercalate ", " (l.map (fun k => "\x27" ++ k ++ "\x27")) ++ "]"

/-- `AppKernel.get_subsystem`: return the stored instance, or raise
`SubsystemNotInitializedError` naming the missing subsystem and listing
the currently available keys. -/
def get_subsystem {α : Type} (s : KernelState α) (name : String) : Except KernelError α :=
  match alookup s.subsystems name with
  | none =>
      .error (.subsystemNotInitialized
        ("Subsystem \x27" ++ name ++ "\x27 is not initialized. Available: "
          ++ pyStrList (dictKeys s.subsystems)))
  | some inst => .ok inst

/-- `AppKernel.is_subsystem_available`: `self._subsystem_status.get(name, False)`. -/
def is_subsystem_available {α : Type} (s : KernelState α) (name : String) : Bool :=
  (alookup s.subsystemStatus name).getD false

/-! ## Invariant enforcement and error reporting -/

/-- `AppKernel.assert_invariant`: no-op when the condition holds;
otherwise bump `error_count`, record the prefixed message in
`last_error`, and raise `KernelInvariantViolation` with that message. -/
def assert_invariant {α : Type} (s : KernelState α) (condition : Bool) (message : String) :
    Except KernelError Unit × KernelState α :=
  if condition then (.ok (), s)
  else
    (.error (.kernelInvariantViolation ("INVARIANT VIOLATION: " ++ message)),
     { s with
         errorCount := s.errorCount + 1
         lastError := some ("INVARIANT VIOLATION: " ++ message) })

/-- `AppKernel.assert_booted`. -/
def assert_booted {α : Type} (s : KernelState α) : Except KernelError Unit × KernelState α :=
  assert_invariant s s.booted "Kernel must be booted before use"

/-- `AppKernel.report_error`: bump `error_count`, record
`"{component}: {error}"`; the forward to the monitoring subsystem is
external and best-effort (a failure there is swallowed), so it does not
touch the kernel fields. -/
def report_error {α : Type} (s : KernelState α) (component : String) (error : String) :
    KernelState α :=
  { s with
      errorCount := s.errorCount + 1
      lastError := some (component ++ ": " ++ error) }

/-! ## Class-level singleton state -/

/-- The class attributes `AppKernel._instance` and `AppKernel._initialized`.
The stored instance is `some none` when `__new__` registered an object
whose `__init__` returned early without setting the fields (only
reachable if `_initialized` is true while `_instance` is `None`), and
`some (some s)` for a fully constructed instance with fields `s`. -/
structure KernelClass (α : Type) : Type where
  inst : Option (Option (KernelState α))
  initialized : Bool

def secondKernelMsg : String :=
  "FATAL: Attempted to create second AppKernel instance. Only one kernel may exist per application."

/-- `AppKernel()`: `__new__` raises `KernelInvariantViolation` if
`_instance` is already set (leaving the class state untouched),
otherwise registers the fresh object; `__init__` then initialises the
fields unless `_initialized` was already true. -/
def constructKernel {α : Type} (c : KernelClass α) :
    Except KernelError Unit × KernelClass α :=
  match c.inst with
  | some _ => (.error (.kernelInvariantViolation secondKernelMsg), c)
  | none =>
      if c.initialized then
        (.ok (), { inst := some none, initialized := true })
      else
        (.ok (), { inst := some (some initialKernelState), initialized := true })

/-- `AppKernel.reset_for_testing`: clear both class attributes. -/
def reset_for_testing {α : Type} (_c : KernelClass α) : KernelClass α :=
  { inst := none, initialized := false }

/-! ## Feature snapshot (`src/kernel_features.py`) -/

/-- `KernelFeatures`: holds the flag dict copied at construction. -/
structure KernelFeatures : Type where
  flags : List (String × Bool)

/-- The `dict(flags)` copy in `KernelFeatures.__init__`: rebuild the
mapping entry by entry (later entries for the same key override). -/
def pyDict (l : List (String × Bool)) : List (String × Bool) :=
  l.foldl (fun d p => dictInsert p.1 p.2 d) []

/-- `KernelFeatures(flags)`. -/
def mkKernelFeatures (flags : List (String × Bool)) : KernelFeatures :=
  { flags := pyDict flags }

/-- The last binding of `key` in a raw flag list: the value that
survives the `dict(flags)` copy when a key occurs several times (for a
genuine dict input, simply the captured value). -/
def alookupLast : List (String × Bool) → String → Option Bool
  | [], _ => none
  | (k0, v) :: rest, key =>
      match alookupLast rest key with
      | some v2 => some v2
      | none => if k0 = key then some v else none

/-- `KernelFeatures.enabled`: `self._flags.get(name, False)`. -/
def KernelFeatures.enabled (kf : KernelFeatures) (name : String) : Bool :=
  (alookup kf.flags name).getD false

/-! ## The kernel's public operations as one step relation

Used to state frame/monotonicity properties ranging over every
operation `AppKernel` actually provides on a live instance. -/

/-- Every public instance operation of `AppKernel`, with its arguments. -/
inductive KernelOp (α : Type) : Type where
  | bootOp (env : BootEnv α)
  | shutdownOp
  | registerShutdownHookOp (h : Hook)
  | getSubsystemOp (name : String)
  | isSubsystemAvailableOp (name : String)
  | assertInvariantOp (condition : Bool) (message : String)
  | assertBootedOp
  | healthSnapshotOp
  | reportErrorOp (component : String) (error : String)

/-- The kernel state after running one public operation (read-only
operations — `get_subsystem`, `is_subsystem_available`,
`health_snapshot` — leave the state unchanged; `shutdown` never fails,
but the `.error` arm keeps the dispatch total). -/
def stepState {α : Type} : KernelOp α → KernelState α → KernelState α
  | .bootOp env, s => (boot env s).2
  | .shutdownOp, s =>
      match shutdown s with
      | .ok p => p.2
      | .error _ => s
  | .registerShutdownHookOp h, s => register_shutdown_hook s h
  | .getSubsystemOp _, s => s
  | .isSubsystemAvailableOp _, s => s
  | .assertInvariantOp c m, s => (assert_invariant s c m).2
  | .assertBootedOp, s => (assert_booted s).2
  | .healthSnapshotOp, s => s
  | .reportErrorOp comp err, s => report_error s comp err

/-! ## Concrete sample inputs for witnesses and counterexamples -/

/-- A booted kernel with one registered subsystem and one registered
(non-raising) shutdown hook. -/
def sampleShutdownKernel : KernelState Nat :=
  { booted := true
    errorCount := 0
    lastError := none
    subsystems := [("state", 0)]
    subsystemStatus := [("state", true)]
    shutdownHooks := [⟨7, false⟩] }

/-- A boot environment whose state-manager constructor raises a
non-`ImportError` exception. -/
def sampleFatalEnv : BootEnv Nat :=
  { stateFactory := .fatal "boom"
    networkFactory := .absent
    monitoringFactory := .absent }

/-- A boot environment where state and monitoring succeed and network
signals absence. -/
def sampleSuccessEnv : BootEnv Nat :=
  { stateFactory := .success 5
    networkFactory := .absent
    monitoringFactory := .success 7 }

/-- Class state with a live, fully constructed kernel instance. -/
def liveKernelClass : KernelClass Nat :=
  { inst := some (some initialKernelState), initialized := true }

/-- A kernel instance that has recorded one error. -/
def erroredKernel : KernelState Nat :=
  { (initialKernelState : KernelState Nat) with errorCount := 1 }

/-! # Lemmas shared across the claims -/

theorem alookup_dictInsert {β : Type} (k : String) (v : β) (d : List (String × β))
    (key : String) :
    alookup (dictInsert k v d) key = if k = key then some v else alookup d key := by
  induction d with
  | nil => simp [dictInsert, alookup]
  | cons p rest ih =>
      obtain ⟨k0, v0⟩ := p
      by_cases h0 : k0 = k
      · subst h0
        by_cases h1 : k0 = key <;> simp [dictInsert, alookup, h1]
      · by_cases h1 : k0 = key
        · subst h1
          have h2 : ¬(k = k0) := fun h => h0 h.symm
          simp [dictInsert, alookup, h0, h2]
        · simp [dictInsert, alookup, h0, h1, ih]

theorem runHooksLoop_eq (l : List Hook) (trace : List Nat) :
    runHooksLoop l trace = .ok (trace ++ l.map Hook.id) := by
  induction l generalizing trace with
  | nil => simp [runHooksLoop]
  | cons h rest ih =>
      unfold runHooksLoop
      cases hc : hookCall h <;> simp [ih]

theorem shutdown_eq {α : Type} (s : KernelState α) :
    shutdown s =
      .ok (s.shutdownHooks.reverse.map Hook.id,
           { s with subsystems := [], subsystemStatus := [], booted := false }) := by
  simp [shutdown, runHooksLoop_eq]

/-! # Claims about shutdown (C3, C5, C10) -/

/-- C5: `shutdown()` invokes the registered hooks in exactly reverse
registration order, and a raising hook is caught (not re-raised) so that
every remaining hook is still invoked: the observed trace always covers
all hooks in reverse order, whatever their `raises` flags are. -/
theorem shutdown_reverse_order {α : Type} (s : KernelState α) :
    (∃ s2 : KernelState α,
      shutdown s = .ok ((s.shutdownHooks.map Hook.id).reverse, s2)) ∧
    ∀ h ∈ s.shutdownHooks, h.id ∈ (s.shutdownHooks.map Hook.id).reverse := by
  constructor
  · exact ⟨_, by rw [shutdown_eq, List.map_reverse]⟩
  · intro h hm
    rw [List.mem_reverse]
    exact List.mem_map.mpr ⟨h, hm, rfl⟩

/-- C10: `shutdown()` is total at the public interface: in every kernel
state, whatever the registered hooks do, it returns normally and never
raises to its caller. -/
theorem shutdown_never_raises {α : Type} (s : KernelState α) :
    ∃ r : List Nat × KernelState α, shutdown s = .ok r :=
  ⟨_, shutdown_eq s⟩

/-- C3 fails as stated: on a kernel with one registered hook, `shutdown`
executes the hook and clears the registries, but the shutdown-hook
sequence afterwards is not empty (the source never clears
`_shutdown_hooks`). -/
theorem shutdown_hooks_not_cleared_cex :
    shutdown sampleShutdownKernel =
      .ok ([7], { sampleShutdownKernel with
                    subsystems := [], subsystemStatus := [], booted := false }) ∧
    ({ sampleShutdownKernel with
         subsystems := [], subsystemStatus := [], booted := false } :
        KernelState Nat).shutdownHooks ≠ [] := by
  constructor
  · rfl
  · decide

/-- C3 (amended): after `shutdown()` every registered hook has been
executed and the subsystem and status registries are empty with `booted`
false, but the shutdown-hook sequence is left unchanged (hooks are
executed, not cleared). -/
theorem shutdown_drains_registry_keeps_hooks {α : Type} (s : KernelState α) :
    ∃ (trace : List Nat) (s2 : KernelState α),
      shutdown s = .ok (trace, s2) ∧
      (∀ h ∈ s.shutdownHooks, h.id ∈ trace) ∧
      s2.subsystems = [] ∧ s2.subsystemStatus = [] ∧ s2.booted = false ∧
      s2.shutdownHooks = s.shutdownHooks := by
  refine ⟨_, _, shutdown_eq s, ?_, rfl, rfl, rfl, rfl⟩
  intro h hm
  exact List.mem_map.mpr ⟨h, List.mem_reverse.mpr hm, rfl⟩

/-! # Invariant assertion (C7) -/

/-- C7: `assert_invariant(true, msg)` never raises and leaves the state
(in particular `errorCount`) unchanged; `assert_invariant(false, msg)`
raises `KernelInvariantViolation` whose message contains `msg`,
increments `errorCount` by exactly 1, and records that message in
`lastError`. -/
theorem assert_invariant_spec {α : Type} (s : KernelState α) (msg : String) :
    assert_invariant s true msg = (.ok (), s) ∧
    ∃ pre post : String,
      assert_invariant s false msg =
        (.error (.kernelInvariantViolation (pre ++ msg ++ post)),
         { s with
             errorCount := s.errorCount + 1
             lastError := some (pre ++ msg ++ post) }) := by
  refine ⟨rfl, "INVARIANT VIOLATION: ", "", ?_⟩
  simp [assert_invariant]

/-! # Singleton construction (C4) -/

/-- C4: constructing a second kernel while one is live raises
`KernelInvariantViolation` and leaves the class state (hence the live
instance) unchanged; constructing after `reset_for_testing` always
succeeds and yields a freshly initialised instance. -/
theorem singleton_construct_spec {α : Type} (c c2 : KernelClass α)
    (i : Option (KernelState α)) (h : c.inst = some i) :
    constructKernel c = (.error (.kernelInvariantViolation secondKernelMsg), c) ∧
    constructKernel (reset_for_testing c2) =
      (.ok (), { inst := some (some initialKernelState), initialized := true }) := by
  constructor
  · unfold constructKernel
    rw [h]
  · rfl

/-- Witness for C4 at a concrete live class state. -/
theorem singleton_construct_spec_witness :
    constructKernel liveKernelClass =
      (.error (.kernelInvariantViolation secondKernelMsg), liveKernelClass) ∧
    constructKernel (reset_for_testing liveKernelClass) =
      (.ok (), { inst := some (some initialKernelState), initialized := true }) :=
  singleton_construct_spec liveKernelClass liveKernelClass (some initialKernelState) rfl

/-! # Subsystem access (C6) -/

/-- C6: for a name absent from the subsystem registry, `get_subsystem`
raises `SubsystemNotInitializedError` — a constructor distinct from
`KernelInvariantViolation` — whose message lists the currently available
subsystem names; before any boot that list is empty; for a present name
the owned instance is returned. -/
theorem get_subsystem_spec {α : Type} (s : KernelState α) (name : String) :
    (alookup s.subsystems name = none →
      get_subsystem s name =
        .error (.subsystemNotInitialized
          ("Subsystem \x27" ++ name ++ "\x27 is not initialized. Available: "
            ++ pyStrList (dictKeys s.subsystems)))) ∧
    (∀ inst, alookup s.subsystems name = some inst →
      get_subsystem s name = .ok inst) ∧
    get_subsystem (initialKernelState : KernelState α) name =
      .error (.subsystemNotInitialized
        ("Subsystem \x27" ++ name ++ "\x27 is not initialized. Available: " ++ "[]")) ∧
    (∀ m1 m2 : String,
      KernelError.subsystemNotInitialized m1 ≠ KernelError.kernelInvariantViolation m2) := by
  have hnil : pyStrList [] = "[]" := rfl
  refine ⟨?_, ?_, ?_, ?_⟩
  · intro h
    simp [get_subsystem, h]
  · intro inst h
    simp [get_subsystem, h]
  · simp [get_subsystem, initialKernelState, alookup, dictKeys, hnil]
  · intro m1 m2 hc
    cases hc

/-- Witness for C6: pre-boot access fails with the empty available list;
access on a kernel owning a `state` subsystem returns it. -/
theorem get_subsystem_spec_witness :
    get_subsystem (initialKernelState : KernelState Nat) "state" =
      .error (.subsystemNotInitialized
        ("Subsystem \x27" ++ "state" ++ "\x27 is not initialized. Available: " ++ "[]")) ∧
    get_subsystem sampleShutdownKernel "state" = .ok 0 :=
  ⟨(get_subsystem_spec (initialKernelState : KernelState Nat) "state").2.2.1,
   (get_subsystem_spec sampleShutdownKernel "state").2.1 0 rfl⟩

/-! # Feature snapshot (C9) -/

theorem alookupLast_eq_none_of_not_mem (l : List (String × Bool)) (key : String)
    (h : key ∉ l.map Prod.fst) : alookupLast l key = none := by
  induction l with
  | nil => rfl
  | cons p rest ih =>
      obtain ⟨k0, v0⟩ := p
      simp only [List.map_cons, List.mem_cons, not_or] at h
      have hk : ¬(k0 = key) := fun e => h.1 e.symm
      simp [alookupLast, ih h.2, hk]

theorem alookup_foldl_dictInsert (l : List (String × Bool)) (d : List (String × Bool))
    (key : String) :
    alookup (l.foldl (fun acc p => dictInsert p.1 p.2 acc) d) key =
      match alookupLast l key with
      | some v => some v
      | none => alookup d key := by
  induction l generalizing d with
  | nil => simp [alookupLast]
  | cons p rest ih =>
      obtain ⟨k0, v0⟩ := p
      simp only [List.foldl_cons]
      rw [ih]
      cases hrest : alookupLast rest key with
      | some v2 => simp [alookupLast, hrest]
      | none =>
          simp only [alookupLast, hrest]
          rw [alookup_dictInsert]
          by_cases hk : k0 = key <;> simp [hk]

/-- C9: `enabled(name)` returns `false` for every flag name never
registered at construction (fail-closed, never fail-open), and for every
registered name it returns the boolean captured at construction (the
binding the `dict` copy retains). -/
theorem kernelFeatures_enabled_spec (flags : List (String × Bool)) (name : String) :
    (name ∉ flags.map Prod.fst → (mkKernelFeatures flags).enabled name = false) ∧
    (∀ b, alookupLast flags name = some b → (mkKernelFeatures flags).enabled name = b) := by
  have hfold := alookup_foldl_dictInsert flags [] name
  constructor
  · intro hnm
    have hnone := alookupLast_eq_none_of_not_mem flags name hnm
    rw [hnone] at hfold
    simp only [KernelFeatures.enabled, mkKernelFeatures, pyDict]
    rw [hfold]
    rfl
  · intro b hb
    rw [hb] at hfold
    simp only [KernelFeatures.enabled, mkKernelFeatures, pyDict]
    rw [hfold]
    rfl

/-- Witness for C9: an unregistered flag reads `false`, a registered one
reads its captured value. -/
theorem kernelFeatures_enabled_spec_witness :
    (mkKernelFeatures [("FEATURE_DEBUG", true)]).enabled "UNKNOWN_FLAG" = false ∧
    (mkKernelFeatures [("FEATURE_DEBUG", true)]).enabled "FEATURE_DEBUG" = true :=
  ⟨(kernelFeatures_enabled_spec [("FEATURE_DEBUG", true)] "UNKNOWN_FLAG").1 (by decide),
   (kernelFeatures_enabled_spec [("FEATURE_DEBUG", true)] "FEATURE_DEBUG").2 true (by decide)⟩

/-! # Boot (C1, C2) -/

/-- C1: if any subsystem constructor raises a non-absence error during
`boot()`, the boot aborts (later subsystems are not initialised and
`booted` is never set), `lastError` records the original message,
`errorCount` grows by exactly 1, and `boot` raises
`KernelInvariantViolation` wrapping the original cause. -/
theorem boot_fatal_spec {α : Type} (env : BootEnv α) (s : KernelState α) (m : String)
    (hf : firstFatal env = some m) (hb : s.booted = false) :
    (boot env s).1 =
      .error (.kernelInvariantViolation ("FATAL: Kernel boot failed: " ++ m)) ∧
    (boot env s).2.lastError = some m ∧
    (boot env s).2.errorCount = s.errorCount + 1 ∧
    (boot env s).2.booted = false ∧
    alookup (boot env s).2.subsystemStatus "monitoring" =
      alookup s.subsystemStatus "monitoring" ∧
    (env.stateFactory = .fatal m →
      (boot env s).2.subsystems = s.subsystems ∧
      (boot env s).2.subsystemStatus = s.subsystemStatus) := by
  obtain ⟨sf, nf, mf⟩ := env
  cases sf <;> cases nf <;> cases mf <;>
    simp_all [firstFatal, boot, initSubsystem, bootFatal, alookup_dictInsert]

/-- Witness for C1: a state-manager constructor failing with "boom" on a
fresh kernel. -/
theorem boot_fatal_spec_witness :
    (boot sampleFatalEnv (initialKernelState : KernelState Nat)).1 =
      .error (.kernelInvariantViolation ("FATAL: Kernel boot failed: " ++ "boom")) ∧
    (boot sampleFatalEnv (initialKernelState : KernelState Nat)).2.lastError = some "boom" ∧
    (boot sampleFatalEnv (initialKernelState : KernelState Nat)).2.errorCount =
      (initialKernelState : KernelState Nat).errorCount + 1 ∧
    (boot sampleFatalEnv (initialKernelState : KernelState Nat)).2.booted = false ∧
    alookup (boot sampleFatalEnv (initialKernelState : KernelState Nat)).2.subsystemStatus
        "monitoring" =
      alookup (initialKernelState : KernelState Nat).subsystemStatus "monitoring" ∧
    (sampleFatalEnv.stateFactory = .fatal "boom" →
      (boot sampleFatalEnv (initialKernelState : KernelState Nat)).2.subsystems =
        (initialKernelState : KernelState Nat).subsystems ∧
      (boot sampleFatalEnv (initialKernelState : KernelState Nat)).2.subsystemStatus =
        (initialKernelState : KernelState Nat).subsystemStatus) :=
  boot_fatal_spec sampleFatalEnv initialKernelState "boom" rfl rfl

/-- C2: a `boot()` with no fatal factory returns `True` with `booted`
set, and afterwards `is_subsystem_available` is `true` exactly for the
subsystems whose factory succeeded (and `false` for the absent ones);
before any boot it is `false` for every name. -/
theorem boot_success_spec {α : Type} (env : BootEnv α) (s : KernelState α) (name : String)
    (hf : firstFatal env = none) (hstat : s.subsystemStatus = []) :
    (boot env s).1 = .ok true ∧
    (boot env s).2.booted = true ∧
    is_subsystem_available (boot env s).2 "state" = env.stateFactory.isSuccess ∧
    is_subsystem_available (boot env s).2 "network" = env.networkFactory.isSuccess ∧
    is_subsystem_available (boot env s).2 "monitoring" = env.monitoringFactory.isSuccess ∧
    is_subsystem_available (initialKernelState : KernelState α) name = false := by
  obtain ⟨sf, nf, mf⟩ := env
  cases sf <;> cases nf <;> cases mf <;>
    simp_all [firstFatal, boot, initSubsystem, is_subsystem_available,
      FactoryResult.isSuccess, alookup_dictInsert, alookup, initialKernelState]

/-- Witness for C2: state succeeds, network is absent, monitoring
succeeds, starting from a fresh kernel. -/
theorem boot_success_spec_witness :
    (boot sampleSuccessEnv (initialKernelState : KernelState Nat)).1 = .ok true ∧
    (boot sampleSuccessEnv (initialKernelState : KernelState Nat)).2.booted = true ∧
    is_subsystem_available (boot sampleSuccessEnv (initialKernelState : KernelState Nat)).2
        "state" = sampleSuccessEnv.stateFactory.isSuccess ∧
    is_subsystem_available (boot sampleSuccessEnv (initialKernelState : KernelState Nat)).2
        "network" = sampleSuccessEnv.networkFactory.isSuccess ∧
    is_subsystem_available (boot sampleSuccessEnv (initialKernelState : KernelState Nat)).2
        "monitoring" = sampleSuccessEnv.monitoringFactory.isSuccess ∧
    is_subsystem_available (initialKernelState : KernelState Nat) "network" = false :=
  boot_success_spec sampleSuccessEnv initialKernelState "network" rfl rfl

/-! # Error-counter monotonicity (C8) -/

theorem boot_errorCount_le {α : Type} (env : BootEnv α) (s : KernelState α) :
    s.errorCount ≤ (boot env s).2.errorCount := by
  obtain ⟨sf, nf, mf⟩ := env
  cases sf <;> cases nf <;> cases mf <;>
    simp [boot, initSubsystem, bootFatal]

theorem stepState_errorCount_le {α : Type} (op : KernelOp α) (s : KernelState α) :
    s.errorCount ≤ (stepState op s).errorCount := by
  cases op with
  | bootOp env => exact boot_errorCount_le env s
  | shutdownOp => simp [stepState, shutdown_eq]
  | registerShutdownHookOp h => simp [stepState, register_shutdown_hook]
  | getSubsystemOp n => simp [stepState]
  | isSubsystemAvailableOp n => simp [stepState]
  | assertInvariantOp c m => cases c <;> simp [stepState, assert_invariant]
  | assertBootedOp =>
      cases hb : s.booted <;> simp [stepState, assert_booted, assert_invariant, hb]
  | healthSnapshotOp => simp [stepState]
  | reportErrorOp comp err => simp [stepState, report_error]

/-- C8 is false as stated: the kernel's public interface contains no
operation that resets the error counter — from a state with
`errorCount = 1`, no provided operation brings `errorCount` back to 0,
so no operation has the claimed `resetHealthCounters` behaviour. -/
theorem no_reset_health_counters_cex :
    ¬ ∃ op : KernelOp Nat, (stepState op erroredKernel).errorCount = 0 := by
  rintro ⟨op, h⟩
  have hle := stepState_errorCount_le op erroredKernel
  rw [h] at hle
  simp [erroredKernel, initialKernelState] at hle

/-- C8 (amended): the kernel provides no `resetHealthCounters`
operation; `errorCount` never decreases through any operation the
kernel actually provides. -/
theorem errorCount_never_decreases {α : Type} (op : KernelOp α) (s : KernelState α) :
    s.errorCount ≤ (stepState op s).errorCount :=
  stepState_errorCount_le op s

end SuperAPK
